import Mathlib

/-!
Shallow embedding of the `useFetch` hook from `src/index.js` of
ebetap/use-fetch-react, together with proofs about the claims of its
specification.

The hook's mutable pieces (`data`, `loading`, `error`, `page`, `url`,
`cacheRef`, `batchedRequestsRef`) are modelled as an explicit state
record.  One invocation of the async `fetchData` callback is modelled as
a recursive function that consumes a list of request outcomes, one per
attempt (the attempt for `retryCount = k+1` is the retry scheduled by
the attempt for `retryCount = k`).  JavaScript values that matter to the
control flow (the truthiness test `cache && cacheRef.current[url]`, the
fallback `error.response?.data || '...'`) are modelled by a small
JavaScript value type with an explicit truthiness function.
-/

namespace UseFetch

/-- A JavaScript runtime value, as far as the hook's control flow can
observe it: the cache-hit test and the error-message fallback branch on
JS truthiness. -/
inductive JsValue where
  | vnull
  | vundefined
  | vnum (n : Int)
  | vstr (s : String)
  | vbool (b : Bool)
  | varr (xs : List JsValue)
  | vobj (tag : String)
deriving Repr

/-- JS truthiness: `null`, `undefined`, `0`, `""` and `false` are falsy;
arrays and objects are always truthy. -/
def JsValue.truthy : JsValue → Bool
  | .vnull => false
  | .vundefined => false
  | .vnum n => n != 0
  | .vstr s => s != ""
  | .vbool b => b
  | .varr _ => true
  | .vobj _ => true

/-- The error object built by `setError` in the catch branches:
`{ message, status, type }` (lines 81-85 and 88-91 of src/index.js). -/
structure ErrObj where
  message : JsValue
  status : Option Nat
  type : String
deriving Repr

/-- Outcome of one `axios({...})` call.  `httpError` is an axios error
carrying a response (`error.response` present, with status and body),
`networkError` is an axios error without a response (timeout, DNS,
connection failure), `canceled` is the axios `CanceledError` thrown when
the abort signal fires (it satisfies `axios.isAxiosError`), and
`jsError` is any non-axios exception (e.g. the caller's `transformData`
throwing). -/
inductive Outcome where
  | success (raw : JsValue)
  | httpError (status : Nat) (body : JsValue) (code : String)
  | networkError (code : String)
  | canceled
  | jsError (message : String)
deriving Repr

/-- `axios.isAxiosError(error)` for each modelled outcome thrown by the
`await axios(...)` expression. -/
def Outcome.isAxiosError : Outcome → Bool
  | .success _ => false
  | .httpError _ _ _ => true
  | .networkError _ => true
  | .canceled => true
  | .jsError _ => false

/-- An outcome is a transport error when it is an axios error that is
not a cancellation: a non-2xx response or a network-level failure. -/
def Outcome.isTransport : Outcome → Bool
  | .httpError _ _ _ => true
  | .networkError _ => true
  | _ => false

/-- `error.response?.status` of the thrown value. -/
def Outcome.respStatus : Outcome → Option Nat
  | .httpError s _ _ => some s
  | _ => none

/-- `error.response?.data` of the thrown value (`undefined` when there
is no response). -/
def Outcome.respData : Outcome → JsValue
  | .httpError _ b _ => b
  | _ => .vundefined

/-- `error.code` of the thrown axios error. -/
def Outcome.errCode : Outcome → String
  | .httpError _ _ c => c
  | .networkError c => c
  | .canceled => "ERR_CANCELED"
  | .jsError _ => ""
  | .success _ => ""

/-- The configuration destructured from `initialOptions` (lines 5-19).
Callbacks are modelled by their presence flag (the code only tests them
for truthiness before invoking them); `onBatchedResponse` is kept as an
optional function because its result becomes `data`. -/
structure Config where
  transformData : JsValue → JsValue
  retries : Nat
  retryDelay : Nat
  cache : Bool
  batchSize : Nat
  onBatchedResponse : Option (List JsValue → JsValue)
  hasOnPageChange : Bool
  hasOnAuthenticationError : Bool

/-- The hook's state shared between attempts: the `useState` cells
`data`, `loading`, `error` and the refs `cacheRef.current`,
`batchedRequestsRef.current`.  (`url` and `page` are kept outside: a
given `fetchData` closure captures a fixed `url`.) -/
structure Shared where
  dataV : Option JsValue
  loading : Bool
  error : Option ErrObj
  cacheStore : List (String × JsValue)
  batched : List JsValue
deriving Repr

/-- `cacheRef.current[url]`: association-list lookup, `undefined` when
absent. -/
def cacheLookup (store : List (String × JsValue)) (url : String) : JsValue :=
  match store.find? (fun p => p.1 == url) with
  | some p => p.2
  | none => .vundefined

/-- `cacheRef.current[url] = v`. -/
def cacheInsert (store : List (String × JsValue)) (url : String) (v : JsValue) :
    List (String × JsValue) :=
  (url, v) :: store.filter (fun p => p.1 != url)

/-- The guard of line 36: `cache && cacheRef.current[url]`. -/
def cacheHit (cfg : Config) (store : List (String × JsValue)) (url : String) : Bool :=
  cfg.cache && (cacheLookup store url).truthy

/-- What the `catch`/`try` body decides to do next: finish, or schedule
a retry via `setTimeout(..., delay)` (line 79). -/
inductive NextAction where
  | finish
  | retryAfter (delay : Nat)
deriving Repr

/-- The flushed payload of line 64: `onBatchedResponse` applied to the
buffer when provided, else the buffer itself (as a JS array). -/
def flushPayload (cfg : Config) (buf : List JsValue) : JsValue :=
  match cfg.onBatchedResponse with
  | some f => f buf
  | none => .varr buf

/-- Result of processing one settled `axios` call: the mutated shared
state, what happens next, and how many times `onAuthenticationError`
was invoked during this attempt. -/
structure AttemptResult where
  shared : Shared
  next : NextAction
  authCalls : Nat

/-- The `try`/`catch` body of `fetchData` (lines 42-92) for one settled
request, given the outcome the `await axios(...)` produced and whether
`abortController.signal.aborted` holds when the catch runs.  Mirrors the
source line by line: success routes through batching/caching, axios
errors invoke the 401 callback, then either schedule a retry
(`retryCount < retries`) or set the terminal error unless aborted;
non-axios errors set a `general` error. -/
def handleOutcome (cfg : Config) (url : String) (s : Shared) (retryCount : Nat)
    (aborted : Bool) (o : Outcome) : AttemptResult :=
  match o with
  | .success raw =>
    let td := cfg.transformData raw
    let s :=
      if cfg.batchSize == 1 then
        let s := { s with dataV := some td }
        if cfg.cache then { s with cacheStore := cacheInsert s.cacheStore url td }
        else s
      else
        let buf := s.batched ++ [td]
        if buf.length ≥ cfg.batchSize then
          { s with dataV := some (flushPayload cfg buf), batched := [] }
        else
          { s with batched := buf }
    -- line 71: setError(null)
    { shared := { s with error := none }, next := .finish, authCalls := 0 }
  | o =>
    if o.isAxiosError then
      let auth :=
        if o.respStatus == some 401 && cfg.hasOnAuthenticationError then 1 else 0
      if retryCount < cfg.retries then
        { shared := s, next := .retryAfter (cfg.retryDelay * (retryCount + 1)),
          authCalls := auth }
      else if !aborted then
        let e : ErrObj :=
          { message :=
              if (o.respData).truthy then o.respData
              else .vstr "An unknown error occurred",
            status := o.respStatus,
            type := o.errCode }
        { shared := { s with error := some e }, next := .finish, authCalls := auth }
      else
        { shared := s, next := .finish, authCalls := auth }
    else
      let e : ErrObj :=
        { message := .vstr (match o with | .jsError m => m | _ => ""),
          status := none,
          type := "general" }
      { shared := { s with error := some e }, next := .finish, authCalls := 0 }

/-- The `finally` clause (lines 93-97): force `loading := false` exactly
when the completing attempt had `retryCount = 0`. -/
def finallyClause (retryCount : Nat) (s : Shared) : Shared :=
  if retryCount == 0 then { s with loading := false } else s

/-- Aggregate observation of one `fetchData` invocation together with
the chain of retries it schedules.  `attempts` counts settled axios
calls, `netCalls` counts axios invocations (a call still in flight when
the outcome list runs out is counted as initiated), `cacheHits` counts
early returns through the cache branch, `delays` lists the scheduled
retry delays in order, `pending` is true when the last initiated call
(or the last scheduled retry) has not settled for lack of a supplied
outcome. -/
structure RunResult where
  shared : Shared
  attempts : Nat
  netCalls : Nat
  cacheHits : Nat
  authCalls : Nat
  delays : List Nat
  pending : Bool
deriving Repr

/-- One `fetchData(abortController, retryCount)` invocation (lines
31-98) and, recursively, every retry it schedules.  `outcomes` supplies
the settlement of each successive axios call; `aborted` is the state of
`abortController.signal.aborted` observed by the catch branches (fixed
across the run: the claims that need a mid-run abort are modelled by
separate consecutive runs).  Each invocation first runs
`setLoading(true); setError(null)`, then the cache short-circuit, then
awaits axios; a scheduled retry re-enters with `retryCount + 1` after
the current attempt's `finally` has run. -/
def fetchData (cfg : Config) (url : String) (s : Shared) (aborted : Bool) :
    List Outcome → Nat → RunResult
  | outcomes, retryCount =>
    -- lines 33-34
    let s := { s with loading := true, error := none }
    -- lines 36-40
    if cacheHit cfg s.cacheStore url then
      let s' := { s with
        dataV := some (cacheLookup s.cacheStore url),
        loading := false }
      { shared := s', attempts := 0, netCalls := 0, cacheHits := 1,
        authCalls := 0, delays := [], pending := false }
    else
      match outcomes with
      | [] =>
        { shared := s, attempts := 0, netCalls := 1, cacheHits := 0,
          authCalls := 0, delays := [], pending := true }
      | o :: rest =>
        let r := handleOutcome cfg url s retryCount aborted o
        let s' := finallyClause retryCount r.shared
        match r.next with
        | .finish =>
          { shared := s', attempts := 1, netCalls := 1, cacheHits := 0,
            authCalls := r.authCalls, delays := [], pending := false }
        | .retryAfter d =>
          let rec_ := fetchData cfg url s' aborted rest (retryCount + 1)
          { shared := rec_.shared, attempts := 1 + rec_.attempts,
            netCalls := 1 + rec_.netCalls, cacheHits := rec_.cacheHits,
            authCalls := r.authCalls + rec_.authCalls,
            delays := d :: rec_.delays, pending := rec_.pending }

/-- The pagination state owned by the hook: the current `url` and
`page` cells. -/
structure PageView where
  url : String
  page : Nat
deriving Repr

/-- `fetchPage(pageNumber)` (lines 124-132): appends `?page=n` to the
*current* url, sets `page`, and invokes `onPageChange` when provided.
Returns the new view and the list of arguments `onPageChange` was
invoked with during the call. -/
def fetchPage (hasOnPageChange : Bool) (v : PageView) (pageNumber : Nat) :
    PageView × List Nat :=
  ({ url := v.url ++ "?page=" ++ toString pageNumber, page := pageNumber },
   if hasOnPageChange then [pageNumber] else [])

/-- `fetchMore()` (lines 134-137): `fetchPage(page + 1)`. -/
def fetchMore (hasOnPageChange : Bool) (v : PageView) : PageView × List Nat :=
  fetchPage hasOnPageChange v (v.page + 1)

/-- The retry delays scheduled by a chain of `n` consecutive failing
attempts whose first attempt runs at `retryCount = rc`: the attempt at
`retryCount = rc + i` schedules `d * (rc + i + 1)`. -/
def expectedDelays (d rc : Nat) : Nat → List Nat
  | 0 => []
  | n + 1 => d * (rc + 1) :: expectedDelays d (rc + 1) n

/-- Sequential fetch cycles: each element of `raws` is the raw body of
one successful request, and each cycle is a fresh `fetchData` call with
`retryCount = 0` whose single axios call succeeds. -/
def runSuccessCycles (cfg : Config) (url : String) : Shared → List JsValue → Shared
  | s, [] => s
  | s, raw :: rest =>
    runSuccessCycles cfg url (fetchData cfg url s false [.success raw] 0).shared rest

/-- The hook's initial state: the `useState` initializers of lines 22-24
(`data = null`, `loading = true`, `error = null`) together with the
initially empty `cacheRef` and `batchedRequestsRef` (lines 27, 29). -/
def initShared : Shared :=
  { dataV := none, loading := true, error := none, cacheStore := [], batched := [] }

/-- A concrete configuration for sample runs: identity transform, no
`onBatchedResponse`, both presence-tested callbacks provided. -/
def exCfg (retries retryDelay : Nat) (cache : Bool) (batchSize : Nat) : Config :=
  { transformData := fun v => v, retries := retries, retryDelay := retryDelay,
    cache := cache, batchSize := batchSize, onBatchedResponse := none,
    hasOnPageChange := true, hasOnAuthenticationError := true }

/-- The visible state left behind by a settled successful cycle for a
locator B: its data shown, loading cleared, no error. -/
def settledB : Shared :=
  { dataV := some (.vstr "fromB"), loading := false, error := none,
    cacheStore := [], batched := [] }

end UseFetch

namespace UseFetch

lemma cacheHit_nil (cfg : Config) (url : String) :
    cacheHit cfg [] url = false := by
  simp [cacheHit, cacheLookup, JsValue.truthy]

lemma cacheLookup_cacheInsert_self (store : List (String × JsValue))
    (url : String) (v : JsValue) :
    cacheLookup (cacheInsert store url v) url = v := by
  simp [cacheLookup, cacheInsert]

lemma expectedDelays_eq_map (d : Nat) :
    ∀ (n rc : Nat), expectedDelays d rc n =
      (List.range n).map (fun i => d * (rc + i + 1)) := by
  intro n
  induction n with
  | zero => intro rc; simp [expectedDelays]
  | succ m ih =>
    intro rc
    rw [List.range_succ_eq_map]
    simp only [expectedDelays, List.map_cons, List.map_map, ih (rc + 1)]
    refine List.cons_eq_cons.mpr ⟨by simp, ?_⟩
    refine List.map_congr_left ?_
    intro i _
    simp only [Function.comp_apply]
    have h2 : rc + 1 + i + 1 = rc + (i + 1) + 1 := by omega
    rw [h2]

lemma handleOutcome_transport_retry (cfg : Config) (url : String) (s : Shared)
    (rc : Nat) (aborted : Bool) (o : Outcome)
    (h : o.isTransport = true) (hlt : rc < cfg.retries) :
    handleOutcome cfg url s rc aborted o =
      { shared := s, next := .retryAfter (cfg.retryDelay * (rc + 1)),
        authCalls :=
          if o.respStatus == some 401 && cfg.hasOnAuthenticationError then 1 else 0 } := by
  cases o <;>
    simp_all [handleOutcome, Outcome.isTransport, Outcome.isAxiosError,
      Outcome.respStatus]

lemma handleOutcome_transport_terminal (cfg : Config) (url : String) (s : Shared)
    (rc : Nat) (o : Outcome)
    (h : o.isTransport = true) (hge : ¬ rc < cfg.retries) :
    (handleOutcome cfg url s rc false o).next = .finish ∧
    (handleOutcome cfg url s rc false o).shared.error.isSome = true ∧
    (handleOutcome cfg url s rc false o).shared.dataV = s.dataV ∧
    (handleOutcome cfg url s rc false o).shared.cacheStore = s.cacheStore ∧
    (handleOutcome cfg url s rc false o).shared.batched = s.batched ∧
    (handleOutcome cfg url s rc false o).shared.loading = s.loading ∧
    (handleOutcome cfg url s rc false o).authCalls =
      (if o.respStatus == some 401 && cfg.hasOnAuthenticationError then 1 else 0) := by
  cases o with
  | success raw => simp [Outcome.isTransport] at h
  | canceled => simp [Outcome.isTransport] at h
  | jsError m => simp [Outcome.isTransport] at h
  | httpError st b c =>
    simp [handleOutcome, Outcome.isAxiosError, Outcome.respStatus,
      Outcome.respData, Outcome.errCode, if_neg hge]
  | networkError c =>
    simp [handleOutcome, Outcome.isAxiosError, Outcome.respStatus,
      Outcome.respData, Outcome.errCode, if_neg hge]

end UseFetch

namespace UseFetch

lemma finallyClause_dataV (rc : Nat) (s : Shared) :
    (finallyClause rc s).dataV = s.dataV := by
  by_cases h : rc == 0 <;> simp [finallyClause, h]

lemma finallyClause_error (rc : Nat) (s : Shared) :
    (finallyClause rc s).error = s.error := by
  by_cases h : rc == 0 <;> simp [finallyClause, h]

lemma finallyClause_cacheStore (rc : Nat) (s : Shared) :
    (finallyClause rc s).cacheStore = s.cacheStore := by
  by_cases h : rc == 0 <;> simp [finallyClause, h]

lemma finallyClause_batched (rc : Nat) (s : Shared) :
    (finallyClause rc s).batched = s.batched := by
  by_cases h : rc == 0 <;> simp [finallyClause, h]

lemma fetchData_allFail (cfg : Config) (url : String) :
    ∀ (outs : List Outcome) (s : Shared) (rc : Nat),
      (∀ o ∈ outs, o.isTransport = true) →
      cacheHit cfg s.cacheStore url = false →
      rc ≤ cfg.retries →
      rc + outs.length = cfg.retries + 1 →
      (fetchData cfg url s false outs rc).attempts = outs.length ∧
      (fetchData cfg url s false outs rc).netCalls = outs.length ∧
      (fetchData cfg url s false outs rc).delays
        = expectedDelays cfg.retryDelay rc (outs.length - 1) ∧
      (fetchData cfg url s false outs rc).shared.error.isSome = true ∧
      (fetchData cfg url s false outs rc).pending = false ∧
      (fetchData cfg url s false outs rc).shared.dataV = s.dataV ∧
      (fetchData cfg url s false outs rc).shared.cacheStore = s.cacheStore ∧
      (fetchData cfg url s false outs rc).shared.loading
        = !(cfg.retries == 0 && rc == 0) := by
  intro outs
  induction outs with
  | nil =>
    intro s rc _ _ hrc hlen
    simp only [List.length_nil] at hlen
    omega
  | cons o rest ih =>
    intro s rc hall hmiss hrc hlen
    have ho : o.isTransport = true := hall o (by simp)
    by_cases hlt : rc < cfg.retries
    · -- the attempt schedules a retry and recurses
      have hrlen : rest.length = cfg.retries - rc := by
        simp only [List.length_cons] at hlen
        omega
      have hrpos : 1 ≤ rest.length := by omega
      simp only [fetchData, hmiss, Bool.false_eq_true, if_false,
        handleOutcome_transport_retry cfg url _ rc false o ho hlt]
      have hstep := ih (finallyClause rc { s with loading := true, error := none })
        (rc + 1) (fun o' ho' => hall o' (by simp [ho']))
        (by rw [finallyClause_cacheStore]; exact hmiss)
        (by omega) (by simp only [List.length_cons] at hlen; omega)
      rcases hstep with ⟨h1, h2, h3, h4, h5, h6, h7, h8⟩
      have hR0 : (cfg.retries == 0) = false := by
        simp only [beq_eq_false_iff_ne, ne_eq]
        omega
      refine ⟨?_, ?_, ?_, by simp [h4], by simp [h5], ?_, ?_, ?_⟩
      · rw [h1]; simp only [List.length_cons]; omega
      · rw [h2]; simp only [List.length_cons]; omega
      · rw [h3]
        have hr : rest.length = (rest.length - 1) + 1 := by omega
        simp only [List.length_cons, Nat.add_sub_cancel]
        rw [hr]
        simp [expectedDelays]
      · rw [h6, finallyClause_dataV]
      · rw [h7, finallyClause_cacheStore]
      · rw [h8]
        simp [hR0]
    · -- terminal attempt: rc = cfg.retries, the error becomes visible
      have hrc' : rc = cfg.retries := by omega
      have hrest : rest = [] := by
        simp only [List.length_cons] at hlen
        cases rest with
        | nil => rfl
        | cons a b => simp only [List.length_cons] at hlen; omega
      subst hrest
      rcases handleOutcome_transport_terminal cfg url
          { s with loading := true, error := none } rc o ho hlt with
        ⟨t1, t2, t3, t4, t5, t6, t7⟩
      simp only [fetchData, hmiss, Bool.false_eq_true, if_false, t1,
        finallyClause_dataV, finallyClause_error, finallyClause_cacheStore]
      refine ⟨by simp, by simp, by simp [expectedDelays], by simp [t2], by simp,
        by simp [t3], by simp [t4], ?_⟩
      by_cases hz : rc = 0
      · subst hz
        have : cfg.retries = 0 := by omega
        simp [finallyClause, this]
      · have hz' : (rc == 0) = false := by simp [hz]
        simp [finallyClause, hz', t6]

end UseFetch

namespace UseFetch

lemma fetchData_allFail_pre (cfg : Config) (url : String) :
    ∀ (outs : List Outcome) (s : Shared) (rc : Nat),
      (∀ o ∈ outs, o.isTransport = true) →
      cacheHit cfg s.cacheStore url = false →
      rc + outs.length ≤ cfg.retries →
      (fetchData cfg url s false outs rc).shared.error = none ∧
      (fetchData cfg url s false outs rc).pending = true ∧
      (fetchData cfg url s false outs rc).attempts = outs.length ∧
      (fetchData cfg url s false outs rc).shared.dataV = s.dataV := by
  intro outs
  induction outs with
  | nil =>
    intro s rc hall hmiss hle
    simp [fetchData, hmiss]
  | cons o rest ih =>
    intro s rc hall hmiss hle
    have ho : o.isTransport = true := hall o (by simp)
    have hlt : rc < cfg.retries := by
      simp only [List.length_cons] at hle; omega
    simp only [fetchData, hmiss, Bool.false_eq_true, if_false,
      handleOutcome_transport_retry cfg url _ rc false o ho hlt]
    have hstep := ih (finallyClause rc { s with loading := true, error := none })
      (rc + 1) (fun o' ho' => hall o' (by simp [ho']))
      (by rw [finallyClause_cacheStore]; exact hmiss)
      (by simp only [List.length_cons] at hle; omega)
    rcases hstep with ⟨h1, h2, h3, h4⟩
    refine ⟨by simp [h1], by simp [h2], ?_, ?_⟩
    · rw [h3]; simp only [List.length_cons]; omega
    · rw [h4, finallyClause_dataV]

lemma handleOutcome_loading (cfg : Config) (url : String) (s : Shared)
    (rc : Nat) (aborted : Bool) (o : Outcome) :
    (handleOutcome cfg url s rc aborted o).shared.loading = s.loading := by
  cases o <;>
    simp [handleOutcome, apply_ite AttemptResult.shared, apply_ite Shared.loading]

lemma handleOutcome_batched_of_not_success (cfg : Config) (url : String)
    (s : Shared) (rc : Nat) (aborted : Bool) (o : Outcome)
    (h : ∀ raw, o ≠ .success raw) :
    (handleOutcome cfg url s rc aborted o).shared.batched = s.batched := by
  cases o with
  | success raw => exact absurd rfl (h raw)
  | _ =>
    simp_all [handleOutcome, apply_ite AttemptResult.shared,
      apply_ite Shared.batched]

end UseFetch

namespace UseFetch

lemma handleOutcome_shared_of_retryAfter (cfg : Config) (url : String)
    (s : Shared) (rc : Nat) (aborted : Bool) (o : Outcome) (d : Nat)
    (h : (handleOutcome cfg url s rc aborted o).next = .retryAfter d) :
    (handleOutcome cfg url s rc aborted o).shared = s := by
  cases o <;>
    simp_all [handleOutcome, apply_ite AttemptResult.shared,
      apply_ite AttemptResult.next] <;>
    split_ifs at h ⊢ <;> simp_all

lemma fetchData_loading_of_pos (cfg : Config) (url : String) :
    ∀ (outs : List Outcome) (s : Shared) (rc : Nat) (aborted : Bool),
      1 ≤ rc →
      cacheHit cfg s.cacheStore url = false →
      (fetchData cfg url s aborted outs rc).shared.loading = true := by
  intro outs
  induction outs with
  | nil =>
    intro s rc ab hpos hmiss
    simp [fetchData, hmiss]
  | cons o rest ih =>
    intro s rc ab hpos hmiss
    have hz : (rc == 0) = false := by
      simp only [beq_eq_false_iff_ne, ne_eq]; omega
    simp only [fetchData, hmiss, Bool.false_eq_true, if_false]
    rcases hno : (handleOutcome cfg url { s with loading := true, error := none }
        rc ab o).next with _ | d
    · simp only [hno, finallyClause, hz, Bool.false_eq_true, if_false,
        handleOutcome_loading]
    · have hsh := handleOutcome_shared_of_retryAfter cfg url
        { s with loading := true, error := none } rc ab o d hno
      simp only [hno, finallyClause, hz, Bool.false_eq_true, if_false, hsh]
      exact ih _ (rc + 1) ab (by omega) hmiss

end UseFetch

namespace UseFetch

lemma fetchData_success_batching (cfg : Config) (url : String) (s : Shared)
    (raw : JsValue) (hb : 1 < cfg.batchSize)
    (hmiss : cacheHit cfg s.cacheStore url = false) :
    (fetchData cfg url s false [.success raw] 0).shared =
      (if s.batched.length + 1 ≥ cfg.batchSize then
        { s with
            dataV := some (flushPayload cfg (s.batched ++ [cfg.transformData raw])),
            batched := [], loading := false, error := none }
      else
        { s with
            batched := s.batched ++ [cfg.transformData raw],
            loading := false, error := none }) := by
  have hb1 : (cfg.batchSize == 1) = false := by
    simp only [beq_eq_false_iff_ne, ne_eq]; omega
  simp only [fetchData, hmiss, Bool.false_eq_true, if_false, handleOutcome, hb1,
    finallyClause]
  split_ifs with h1 h2 <;> simp_all

lemma runSuccessCycles_cons (cfg : Config) (url : String) (s : Shared)
    (raw : JsValue) (rest : List JsValue) :
    runSuccessCycles cfg url s (raw :: rest)
      = runSuccessCycles cfg url
          (fetchData cfg url s false [.success raw] 0).shared rest := rfl

lemma runSuccessCycles_buffer (cfg : Config) (url : String)
    (hb : 1 < cfg.batchSize) :
    ∀ (raws : List JsValue) (s : Shared),
      s.cacheStore = [] →
      s.batched.length + raws.length < cfg.batchSize →
      (runSuccessCycles cfg url s raws).batched
        = s.batched ++ raws.map cfg.transformData ∧
      (runSuccessCycles cfg url s raws).dataV = s.dataV ∧
      (runSuccessCycles cfg url s raws).cacheStore = [] := by
  intro raws
  induction raws with
  | nil => intro s hst hlen; simp [runSuccessCycles, hst]
  | cons raw rest ih =>
    intro s hst hlen
    have hmiss : cacheHit cfg s.cacheStore url = false := by
      rw [hst]; exact cacheHit_nil cfg url
    have hnof : ¬ s.batched.length + 1 ≥ cfg.batchSize := by
      simp only [List.length_cons] at hlen; omega
    rw [runSuccessCycles_cons, fetchData_success_batching cfg url s raw hb hmiss,
      if_neg hnof]
    have hstep := ih
      { s with
        batched := s.batched ++ [cfg.transformData raw],
        loading := false,
        error := none }
      (by simpa using hst)
      (by simp only [List.length_cons] at hlen ⊢; simp; omega)
    rcases hstep with ⟨h1, h2, h3⟩
    refine ⟨?_, by simpa using h2, by simpa using h3⟩
    rw [h1]
    simp

lemma runSuccessCycles_flush (cfg : Config) (url : String)
    (hb : 1 < cfg.batchSize) :
    ∀ (raws : List JsValue) (s : Shared),
      s.cacheStore = [] →
      raws ≠ [] →
      s.batched.length + raws.length = cfg.batchSize →
      (runSuccessCycles cfg url s raws).dataV
        = some (flushPayload cfg (s.batched ++ raws.map cfg.transformData)) ∧
      (runSuccessCycles cfg url s raws).batched = [] ∧
      (runSuccessCycles cfg url s raws).cacheStore = [] := by
  intro raws
  induction raws with
  | nil => intro s _ hne _; exact absurd rfl hne
  | cons raw rest ih =>
    intro s hst _ hlen
    have hmiss : cacheHit cfg s.cacheStore url = false := by
      rw [hst]; exact cacheHit_nil cfg url
    cases rest with
    | nil =>
      have hfl : s.batched.length + 1 ≥ cfg.batchSize := by
        simp only [List.length_cons, List.length_nil] at hlen; omega
      rw [runSuccessCycles_cons, fetchData_success_batching cfg url s raw hb hmiss,
        if_pos hfl]
      simp [runSuccessCycles, hst]
    | cons raw2 rest2 =>
      have hnof : ¬ s.batched.length + 1 ≥ cfg.batchSize := by
        simp only [List.length_cons] at hlen; omega
      rw [runSuccessCycles_cons, fetchData_success_batching cfg url s raw hb hmiss,
        if_neg hnof]
      have hstep := ih
        { s with
          batched := s.batched ++ [cfg.transformData raw],
          loading := false,
          error := none }
        (by simpa using hst) (by simp)
        (by simp only [List.length_cons] at hlen ⊢; simp; omega)
      rcases hstep with ⟨h1, h2, h3⟩
      refine ⟨?_, by simpa using h2, by simpa using h3⟩
      rw [h1]
      simp

end UseFetch

namespace UseFetch

lemma handleOutcome_cacheStore_of_batch (cfg : Config) (url : String)
    (s : Shared) (rc : Nat) (aborted : Bool) (o : Outcome)
    (hb1 : (cfg.batchSize == 1) = false) :
    (handleOutcome cfg url s rc aborted o).shared.cacheStore = s.cacheStore := by
  cases o <;>
    simp [handleOutcome, hb1, apply_ite AttemptResult.shared,
      apply_ite Shared.cacheStore]

lemma fetchData_batch_no_cache (cfg : Config) (url : String)
    (hb : 1 < cfg.batchSize) :
    ∀ (outs : List Outcome) (s : Shared) (rc : Nat) (aborted : Bool),
      s.cacheStore = [] →
      (fetchData cfg url s aborted outs rc).shared.cacheStore = [] ∧
      (fetchData cfg url s aborted outs rc).cacheHits = 0 ∧
      1 ≤ (fetchData cfg url s aborted outs rc).netCalls := by
  have hb1 : (cfg.batchSize == 1) = false := by
    simp only [beq_eq_false_iff_ne, ne_eq]; omega
  intro outs
  induction outs with
  | nil =>
    intro s rc ab hst
    have hmiss : cacheHit cfg s.cacheStore url = false := by
      rw [hst]; exact cacheHit_nil cfg url
    simp [fetchData, cacheHit_nil, hst]
  | cons o rest ih =>
    intro s rc ab hst
    have hmiss : cacheHit cfg s.cacheStore url = false := by
      rw [hst]; exact cacheHit_nil cfg url
    simp only [fetchData, hmiss, Bool.false_eq_true, if_false]
    rcases hno : (handleOutcome cfg url { s with loading := true, error := none }
        rc ab o).next with _ | d
    · simp only [hno]
      have hcs := handleOutcome_cacheStore_of_batch cfg url
        { s with loading := true, error := none } rc ab o hb1
      simp only [finallyClause_cacheStore, hcs]
      simp [hst]
    · have hsh := handleOutcome_shared_of_retryAfter cfg url
        { s with loading := true, error := none } rc ab o d hno
      simp only [hno, hsh]
      have hrec := ih (finallyClause rc { s with loading := true, error := none })
        (rc + 1) ab (by rw [finallyClause_cacheStore]; exact hst)
      rcases hrec with ⟨h1, h2, h3⟩
      refine ⟨by simpa using h1, by simpa using h2, by simp⟩

end UseFetch

namespace UseFetch

lemma fetchData_success_single (cfg : Config) (url : String) (s : Shared)
    (raw : JsValue) (hb : cfg.batchSize = 1)
    (hmiss : cacheHit cfg s.cacheStore url = false) :
    fetchData cfg url s false [.success raw] 0 =
      { shared :=
          { s with
            dataV := some (cfg.transformData raw),
            cacheStore :=
              if cfg.cache then
                cacheInsert s.cacheStore url (cfg.transformData raw)
              else s.cacheStore,
            loading := false,
            error := none },
        attempts := 1, netCalls := 1, cacheHits := 0, authCalls := 0,
        delays := [], pending := false } := by
  have hb1 : (cfg.batchSize == 1) = true := by simp [hb]
  simp only [fetchData, hmiss, Bool.false_eq_true, if_false, handleOutcome, hb1,
    if_true, finallyClause]
  split_ifs <;> simp_all

lemma fetchData_cache_hit (cfg : Config) (url : String) (s : Shared)
    (outs : List Outcome) (rc : Nat) (aborted : Bool)
    (hhit : cacheHit cfg s.cacheStore url = true) :
    fetchData cfg url s aborted outs rc =
      { shared :=
          { s with
            dataV := some (cacheLookup s.cacheStore url),
            loading := false,
            error := none },
        attempts := 0, netCalls := 0, cacheHits := 1, authCalls := 0,
        delays := [], pending := false } := by
  cases outs <;> simp [fetchData, hhit]

end UseFetch

namespace UseFetch

/-- C1: evaluation of the code at the failing input.  Cycle A's first
attempt (retryCount 0) fails with a network error while a retry is still
available, so a retry is scheduled (first conjunct).  A newer cycle for
locator B then settles successfully, leaving the settled visible state
(second conjunct).  When cycle A's scheduled retry fires afterwards —
its abort signal now set, so its axios call settles as canceled — it
still mutates VisibleState: `setLoading(true)` at the top of `fetchData`
raises `loading` back to `true` after cycle B had settled it `false`
(third conjunct), contradicting the claim that every pending completion
of a superseded cycle is discarded without mutating VisibleState. -/
theorem superseded_retry_mutates_visible_state :
    (handleOutcome (exCfg 1 100 false 1) "urlA" initShared 0 false
        (.networkError "ERR_NETWORK")).next = .retryAfter 100 ∧
    (fetchData (exCfg 1 100 false 1) "urlB" initShared false
        [.success (.vstr "fromB")] 0).shared = settledB ∧
    settledB.loading = false ∧
    (fetchData (exCfg 1 100 false 1) "urlA" settledB true
        [.canceled] 1).shared.loading = true :=
  ⟨rfl, rfl, rfl, rfl⟩

/-- C2: a persistently failing request with `retries = R` performs
exactly `R + 1` attempts with linear-backoff delays `retryDelay * 1, …,
retryDelay * R`, the terminal error appears only once the last attempt
has failed (after any proper prefix of `k ≤ R` settled attempts the
error is still null), and with `R = 0` the single attempt yields the
error with no delay (`delays = []`). -/
theorem persistent_failure_retry_schedule (cfg : Config) (url : String)
    (s : Shared) (outs : List Outcome) (R d k : Nat)
    (hR : cfg.retries = R) (hd : cfg.retryDelay = d)
    (hall : ∀ o ∈ outs, o.isTransport = true)
    (hmiss : cacheHit cfg s.cacheStore url = false)
    (hlen : outs.length = R + 1) (hk : k ≤ R) :
    (fetchData cfg url s false outs 0).attempts = R + 1 ∧
    (fetchData cfg url s false outs 0).netCalls = R + 1 ∧
    (fetchData cfg url s false outs 0).delays
      = (List.range R).map (fun i => d * (i + 1)) ∧
    (fetchData cfg url s false outs 0).shared.error.isSome = true ∧
    (fetchData cfg url s false outs 0).pending = false ∧
    (fetchData cfg url s false (outs.take k) 0).shared.error = none := by
  subst hR hd
  rcases fetchData_allFail cfg url outs s 0 hall hmiss (by omega) (by omega) with
    ⟨h1, h2, h3, h4, h5, _, _, _⟩
  have hpre := fetchData_allFail_pre cfg url (outs.take k) s 0
    (fun o ho => hall o (List.take_subset k outs ho)) hmiss
    (by simp only [Nat.zero_add, List.length_take]; omega)
  refine ⟨by rw [h1, hlen], by rw [h2, hlen], ?_, h4, h5, hpre.1⟩
  rw [h3, hlen]
  simp only [Nat.add_sub_cancel]
  rw [expectedDelays_eq_map]
  refine List.map_congr_left ?_
  intro i _
  simp

/-- C2 witness: `retries = 2`, `retryDelay = 100`, three network-error
attempts; prefix of `k = 2` settled attempts. -/
theorem persistent_failure_retry_schedule_inst :
    (fetchData (exCfg 2 100 false 1) "u" initShared false
        [.networkError "E", .networkError "E", .networkError "E"] 0).attempts = 3 ∧
    (fetchData (exCfg 2 100 false 1) "u" initShared false
        [.networkError "E", .networkError "E", .networkError "E"] 0).netCalls = 3 ∧
    (fetchData (exCfg 2 100 false 1) "u" initShared false
        [.networkError "E", .networkError "E", .networkError "E"] 0).delays
      = (List.range 2).map (fun i => 100 * (i + 1)) ∧
    (fetchData (exCfg 2 100 false 1) "u" initShared false
        [.networkError "E", .networkError "E", .networkError "E"] 0).shared.error.isSome
      = true ∧
    (fetchData (exCfg 2 100 false 1) "u" initShared false
        [.networkError "E", .networkError "E", .networkError "E"] 0).pending = false ∧
    (fetchData (exCfg 2 100 false 1) "u" initShared false
        ([Outcome.networkError "E", .networkError "E", .networkError "E"].take 2)
        0).shared.error = none :=
  persistent_failure_retry_schedule (exCfg 2 100 false 1) "u" initShared
    [.networkError "E", .networkError "E", .networkError "E"] 2 100 2
    rfl rfl (by decide) rfl rfl (by decide)

/-- C3 counterexample: with `retries = 1` and both attempts failing with
a network error, the cycle reaches its terminal state (error set, nothing
pending) with `loading = true`: the retry attempt re-raised `loading`
after the first attempt's `finally` had cleared it, contradicting the
claim that no retry attempt ever raises `loading` back to `true`. -/
theorem loading_reraised_by_retry_cex :
    (fetchData (exCfg 1 100 false 1) "u" initShared false
        [.networkError "E", .networkError "E"] 0).shared.loading = true ∧
    (fetchData (exCfg 1 100 false 1) "u" initShared false
        [.networkError "E", .networkError "E"] 0).shared.error.isSome = true ∧
    (fetchData (exCfg 1 100 false 1) "u" initShared false
        [.networkError "E", .networkError "E"] 0).pending = false :=
  ⟨rfl, rfl, rfl⟩

/-- C3 (amended): `setLoading(true)` runs at the start of every attempt,
retries included, and the `finally` clause clears `loading` only when the
completing attempt had `retryCount = 0`; hence any attempt chain entered
at `retryCount ≥ 1` (a fired retry) leaves `loading = true` for the rest
of the cycle, while a `retryCount = 0` completion does force
`loading = false`. -/
theorem retry_attempt_forces_loading (cfg : Config) (url : String)
    (outs : List Outcome) (s : Shared) (rc : Nat) (aborted : Bool)
    (hpos : 1 ≤ rc) (hmiss : cacheHit cfg s.cacheStore url = false) :
    (fetchData cfg url s aborted outs rc).shared.loading = true ∧
    (finallyClause 0 s).loading = false :=
  ⟨fetchData_loading_of_pos cfg url outs s rc aborted hpos hmiss, rfl⟩

/-- C3 amended-claim witness: a fired retry attempt (`retryCount = 1`)
whose axios call settles as canceled, entered from the settled state of
a successful cycle. -/
theorem retry_attempt_forces_loading_inst :
    (fetchData (exCfg 1 100 false 1) "u" settledB true [.canceled] 1).shared.loading
      = true ∧
    (finallyClause 0 settledB).loading = false :=
  retry_attempt_forces_loading (exCfg 1 100 false 1) "u" [.canceled] settledB 1
    true (by decide) rfl

end UseFetch

namespace UseFetch

/-- C4 counterexample: with `cache = true`, `batchSize = 1` and the
identity transform, a first successful cycle whose transformed value is
the falsy JS value `0` stores it in the cache, yet the second start
misses the cache (`cache && cacheRef.current[url]` is falsy) and issues
the request executor again: two network calls in total, contradicting
the claim of exactly one. -/
theorem cache_falsy_value_refetches_cex :
    (fetchData (exCfg 0 1000 true 1) "u" initShared false
        [.success (.vnum 0)] 0).netCalls = 1 ∧
    (fetchData (exCfg 0 1000 true 1) "u" initShared false
        [.success (.vnum 0)] 0).shared.cacheStore = [("u", .vnum 0)] ∧
    (fetchData (exCfg 0 1000 true 1) "u"
        (fetchData (exCfg 0 1000 true 1) "u" initShared false
          [.success (.vnum 0)] 0).shared false [] 0).netCalls = 1 ∧
    (fetchData (exCfg 0 1000 true 1) "u"
        (fetchData (exCfg 0 1000 true 1) "u" initShared false
          [.success (.vnum 0)] 0).shared false [] 0).cacheHits = 0 :=
  ⟨rfl, rfl, rfl, rfl⟩

/-- C4 (amended): with `cache = true`, `batchSize = 1`, a cache-missing
first start whose single request succeeds, and a *truthy* transformed
value, the second start on the same locator is a cache hit: it issues no
network call, synchronously sets `data` to the memoized transformed
value and `loading` to `false`; the request executor ran exactly once in
total. -/
theorem cache_idempotence_truthy (cfg : Config) (url : String) (s : Shared)
    (raw : JsValue) (hc : cfg.cache = true) (hb : cfg.batchSize = 1)
    (hmiss : cacheHit cfg s.cacheStore url = false)
    (htr : (cfg.transformData raw).truthy = true) :
    (fetchData cfg url s false [.success raw] 0).netCalls = 1 ∧
    (fetchData cfg url s false [.success raw] 0).shared.dataV
      = some (cfg.transformData raw) ∧
    (fetchData cfg url s false [.success raw] 0).shared.loading = false ∧
    (fetchData cfg url
        (fetchData cfg url s false [.success raw] 0).shared false [] 0).netCalls
      = 0 ∧
    (fetchData cfg url
        (fetchData cfg url s false [.success raw] 0).shared false [] 0).cacheHits
      = 1 ∧
    (fetchData cfg url
        (fetchData cfg url s false [.success raw] 0).shared false [] 0).pending
      = false ∧
    (fetchData cfg url
        (fetchData cfg url s false [.success raw] 0).shared false [] 0).shared.dataV
      = some (cfg.transformData raw) ∧
    (fetchData cfg url
        (fetchData cfg url s false [.success raw] 0).shared false [] 0).shared.loading
      = false := by
  have h1 := fetchData_success_single cfg url s raw hb hmiss
  have hstore : (fetchData cfg url s false [.success raw] 0).shared.cacheStore
      = cacheInsert s.cacheStore url (cfg.transformData raw) := by
    rw [h1]; simp [hc]
  have hhit : cacheHit cfg
      (fetchData cfg url s false [.success raw] 0).shared.cacheStore url = true := by
    rw [hstore]
    simp [cacheHit, hc, cacheLookup_cacheInsert_self, htr]
  have h2 := fetchData_cache_hit cfg url
    (fetchData cfg url s false [.success raw] 0).shared [] 0 false hhit
  refine ⟨by rw [h1], by rw [h1], by rw [h1], by rw [h2], by rw [h2], by rw [h2],
    ?_, by rw [h2]⟩
  rw [h2]
  simp only [hstore, cacheLookup_cacheInsert_self]

/-- C4 amended-claim witness: a truthy transformed value (`42`). -/
theorem cache_idempotence_truthy_inst :
    (fetchData (exCfg 0 1000 true 1) "u" initShared false
        [.success (.vnum 42)] 0).netCalls = 1 ∧
    (fetchData (exCfg 0 1000 true 1) "u" initShared false
        [.success (.vnum 42)] 0).shared.dataV = some (.vnum 42) ∧
    (fetchData (exCfg 0 1000 true 1) "u" initShared false
        [.success (.vnum 42)] 0).shared.loading = false ∧
    (fetchData (exCfg 0 1000 true 1) "u"
        (fetchData (exCfg 0 1000 true 1) "u" initShared false
          [.success (.vnum 42)] 0).shared false [] 0).netCalls = 0 ∧
    (fetchData (exCfg 0 1000 true 1) "u"
        (fetchData (exCfg 0 1000 true 1) "u" initShared false
          [.success (.vnum 42)] 0).shared false [] 0).cacheHits = 1 ∧
    (fetchData (exCfg 0 1000 true 1) "u"
        (fetchData (exCfg 0 1000 true 1) "u" initShared false
          [.success (.vnum 42)] 0).shared false [] 0).pending = false ∧
    (fetchData (exCfg 0 1000 true 1) "u"
        (fetchData (exCfg 0 1000 true 1) "u" initShared false
          [.success (.vnum 42)] 0).shared false [] 0).shared.dataV
      = some (.vnum 42) ∧
    (fetchData (exCfg 0 1000 true 1) "u"
        (fetchData (exCfg 0 1000 true 1) "u" initShared false
          [.success (.vnum 42)] 0).shared false [] 0).shared.loading = false :=
  cache_idempotence_truthy (exCfg 0 1000 true 1) "u" initShared (.vnum 42)
    rfl rfl rfl rfl

end UseFetch

namespace UseFetch

/-- C5: with `batchSize = N > 1` and a sequence of `N` successful fetch
cycles starting from an empty batch buffer (and empty cache store, as at
mount), after any proper prefix of `j < N` successes `data` is unchanged
and the buffer holds exactly the `j` transformed results (so its length
stays below `N`); after the `N`-th success `data` is
`onBatchedResponse(buffer)` when that callback is provided, else the
buffer itself as an array, and the buffer is empty. -/
theorem batching_accumulates_then_flushes (cfg : Config) (url : String)
    (s : Shared) (raws : List JsValue) (N j : Nat)
    (hN : cfg.batchSize = N) (hgt : 1 < N)
    (hst : s.cacheStore = []) (hbuf : s.batched = [])
    (hlen : raws.length = N) (hj : j < N) :
    (runSuccessCycles cfg url s (raws.take j)).dataV = s.dataV ∧
    (runSuccessCycles cfg url s (raws.take j)).batched
      = (raws.take j).map cfg.transformData ∧
    (runSuccessCycles cfg url s (raws.take j)).batched.length < N ∧
    (runSuccessCycles cfg url s raws).dataV
      = some (flushPayload cfg (raws.map cfg.transformData)) ∧
    (runSuccessCycles cfg url s raws).batched = [] := by
  subst hN
  have hjlen : (raws.take j).length = j := by
    rw [List.length_take]; omega
  rcases runSuccessCycles_buffer cfg url hgt (raws.take j) s hst
      (by rw [hbuf, hjlen]; simpa using hj) with ⟨b1, b2, _⟩
  rcases runSuccessCycles_flush cfg url hgt raws s hst
      (by intro hnil; rw [hnil] at hlen; simp at hlen; omega)
      (by rw [hbuf, hlen]; simp) with ⟨f1, f2, _⟩
  refine ⟨b2, ?_, ?_, ?_, f2⟩
  · rw [b1, hbuf]; simp
  · rw [b1, hbuf]; simp [hjlen, hj]
  · rw [f1, hbuf]; simp

/-- C5 witness: `batchSize = 2`, two successes `1` and `2` with the
identity transform and no `onBatchedResponse`; prefix `j = 1`. -/
theorem batching_accumulates_then_flushes_inst :
    (runSuccessCycles (exCfg 0 1000 false 2) "u" initShared
        ([JsValue.vnum 1, .vnum 2].take 1)).dataV = initShared.dataV ∧
    (runSuccessCycles (exCfg 0 1000 false 2) "u" initShared
        ([JsValue.vnum 1, .vnum 2].take 1)).batched
      = ([JsValue.vnum 1, .vnum 2].take 1).map (exCfg 0 1000 false 2).transformData ∧
    (runSuccessCycles (exCfg 0 1000 false 2) "u" initShared
        ([JsValue.vnum 1, .vnum 2].take 1)).batched.length < 2 ∧
    (runSuccessCycles (exCfg 0 1000 false 2) "u" initShared
        [JsValue.vnum 1, .vnum 2]).dataV
      = some (flushPayload (exCfg 0 1000 false 2)
          ([JsValue.vnum 1, .vnum 2].map (exCfg 0 1000 false 2).transformData)) ∧
    (runSuccessCycles (exCfg 0 1000 false 2) "u" initShared
        [JsValue.vnum 1, .vnum 2]).batched = [] :=
  batching_accumulates_then_flushes (exCfg 0 1000 false 2) "u" initShared
    [JsValue.vnum 1, .vnum 2] 2 1 rfl (by decide) rfl rfl rfl (by decide)

/-- C6: evaluation of the code at the failing input.  An attempt whose
axios call settles as canceled (the abort signal fired) with
`retryCount = 0 < retries = 1` schedules a retry after
`retryDelay * 1`: `CanceledError` satisfies `axios.isAxiosError`, and the
retry branch does not consult the cancellation token, so — contrary to
the claim — a `Cancelled` outcome is retried whenever
`retryCount < retries`. -/
theorem canceled_outcome_is_retried :
    (handleOutcome (exCfg 1 100 false 1) "u" initShared 0 true .canceled).next
      = .retryAfter 100 ∧
    (handleOutcome (exCfg 1 100 false 1) "u" initShared 0 true
        (.success (.vnum 1))).next = .finish :=
  ⟨rfl, rfl⟩

/-- C7: an attempt that fails with an HTTP 401 error invokes the
provided `onAuthenticationError` callback exactly once, for every
`retryCount`, `retries` and abort state — i.e. independent of whether a
retry is subsequently scheduled or the error becomes terminal. -/
theorem auth_callback_on_401 (cfg : Config) (url : String) (s : Shared)
    (rc : Nat) (aborted : Bool) (body : JsValue) (code : String)
    (hcb : cfg.hasOnAuthenticationError = true) :
    (handleOutcome cfg url s rc aborted (.httpError 401 body code)).authCalls
      = 1 := by
  simp [handleOutcome, Outcome.isAxiosError, Outcome.respStatus, hcb,
    apply_ite AttemptResult.authCalls]

/-- C7 witness: a 401 attempt that schedules a retry
(`retryCount = 0 < retries = 1`) and a 401 attempt that becomes terminal
(`retries = 0`) each invoke the callback once. -/
theorem auth_callback_on_401_inst :
    (handleOutcome (exCfg 1 100 false 1) "u" initShared 0 false
        (.httpError 401 (.vstr "denied") "ERR_BAD_REQUEST")).authCalls = 1 ∧
    (handleOutcome (exCfg 0 100 false 1) "u" initShared 0 false
        (.httpError 401 (.vstr "denied") "ERR_BAD_REQUEST")).authCalls = 1 :=
  ⟨auth_callback_on_401 (exCfg 1 100 false 1) "u" initShared 0 false
      (.vstr "denied") "ERR_BAD_REQUEST" rfl,
    auth_callback_on_401 (exCfg 0 100 false 1) "u" initShared 0 false
      (.vstr "denied") "ERR_BAD_REQUEST" rfl⟩

end UseFetch

namespace UseFetch

/-- C8 counterexample: starting from the base locator, `fetchPage 2`
followed by `fetchPage 3` yields `base?page=2?page=3` — the page
parameter is appended to the *current* locator, so the next request does
not go to the base locator with a `page=3` indicator appended. -/
theorem fetchPage_compounds_url_cex :
    (fetchPage true ((fetchPage true { url := "base", page := 1 } 2).1) 3).1.url
      = "base?page=2?page=3" ∧
    "base?page=2?page=3" ≠ "base?page=3" :=
  ⟨rfl, by decide⟩

/-- C8 (amended): `fetchPage n` sets the page state to `n`, invokes
`onPageChange` exactly once, with argument `n`, when provided (never
otherwise), and sets
the locator to the *current* locator with `?page=n` appended — which
equals the base locator with a page indicator appended only when the
current locator is still the base; `fetchMore()` is exactly
`fetchPage(page + 1)` for the current page value. -/
theorem fetchPage_appends_to_current (hasCb : Bool) (v : PageView) (n : Nat) :
    (fetchPage hasCb v n).1.page = n ∧
    (fetchPage hasCb v n).1.url = v.url ++ "?page=" ++ toString n ∧
    (fetchPage hasCb v n).2 = (if hasCb then [n] else []) ∧
    fetchMore hasCb v = fetchPage hasCb v (v.page + 1) :=
  ⟨rfl, rfl, rfl, rfl⟩

/-- C9: the batch buffer survives a locator change.  With
`batchSize = 2`, a success fetched for locator A leaves its transformed
result in the buffer with `data` unchanged; after the locator changes to
B, the next success flushes a batch combining the results of both
locators into one `data` value. -/
theorem batch_buffer_survives_locator_change (cfg : Config)
    (urlA urlB : String) (s : Shared) (rawA rawB : JsValue)
    (hb : cfg.batchSize = 2) (hst : s.cacheStore = []) (hbuf : s.batched = [])
    (_hne : urlA ≠ urlB) :
    (fetchData cfg urlA s false [.success rawA] 0).shared.batched
      = [cfg.transformData rawA] ∧
    (fetchData cfg urlA s false [.success rawA] 0).shared.dataV = s.dataV ∧
    (fetchData cfg urlB
        (fetchData cfg urlA s false [.success rawA] 0).shared false
        [.success rawB] 0).shared.dataV
      = some (flushPayload cfg [cfg.transformData rawA, cfg.transformData rawB]) ∧
    (fetchData cfg urlB
        (fetchData cfg urlA s false [.success rawA] 0).shared false
        [.success rawB] 0).shared.batched = [] := by
  have hgt : 1 < cfg.batchSize := by omega
  have hmissA : cacheHit cfg s.cacheStore urlA = false := by
    rw [hst]; exact cacheHit_nil cfg urlA
  have hnof : ¬ s.batched.length + 1 ≥ cfg.batchSize := by
    rw [hbuf, hb]; simp
  have h1 := fetchData_success_batching cfg urlA s rawA hgt hmissA
  rw [if_neg hnof] at h1
  have hmissB : cacheHit cfg
      (fetchData cfg urlA s false [.success rawA] 0).shared.cacheStore urlB
        = false := by
    rw [h1]
    simpa using (by rw [hst]; exact cacheHit_nil cfg urlB :
      cacheHit cfg s.cacheStore urlB = false)
  have h2 := fetchData_success_batching cfg urlB
    (fetchData cfg urlA s false [.success rawA] 0).shared rawB hgt hmissB
  have hfl : (fetchData cfg urlA s false [.success rawA] 0).shared.batched.length
      + 1 ≥ cfg.batchSize := by
    rw [h1]; simp [hbuf, hb]
  rw [if_pos hfl] at h2
  refine ⟨by rw [h1]; simp [hbuf], by rw [h1], ?_, by rw [h2]⟩
  rw [h2, h1]
  simp [hbuf]

/-- C9 witness: locators "a" and "b", raw values `1` and `2`. -/
theorem batch_buffer_survives_locator_change_inst :
    (fetchData (exCfg 0 1000 false 2) "a" initShared false
        [.success (.vnum 1)] 0).shared.batched = [JsValue.vnum 1] ∧
    (fetchData (exCfg 0 1000 false 2) "a" initShared false
        [.success (.vnum 1)] 0).shared.dataV = initShared.dataV ∧
    (fetchData (exCfg 0 1000 false 2) "b"
        (fetchData (exCfg 0 1000 false 2) "a" initShared false
          [.success (.vnum 1)] 0).shared false
        [.success (.vnum 2)] 0).shared.dataV
      = some (flushPayload (exCfg 0 1000 false 2) [JsValue.vnum 1, .vnum 2]) ∧
    (fetchData (exCfg 0 1000 false 2) "b"
        (fetchData (exCfg 0 1000 false 2) "a" initShared false
          [.success (.vnum 1)] 0).shared false
        [.success (.vnum 2)] 0).shared.batched = [] :=
  batch_buffer_survives_locator_change (exCfg 0 1000 false 2) "a" "b"
    initShared (.vnum 1) (.vnum 2) rfl rfl rfl (by decide)

/-- C10: with `batchSize > 1` the cache store is never written (the
cache write sits only on the `batchSize === 1` path), so starting from
the empty cache store of a fresh mount, any run — any outcomes, any
`retryCount`, any abort state — leaves the cache store empty, never
takes the cache-hit branch, and always issues the request executor at
least once. -/
theorem batching_disables_cache (cfg : Config) (url : String) (s : Shared)
    (outs : List Outcome) (rc : Nat) (aborted : Bool)
    (hb : 1 < cfg.batchSize) (hst : s.cacheStore = []) :
    (fetchData cfg url s aborted outs rc).shared.cacheStore = [] ∧
    (fetchData cfg url s aborted outs rc).cacheHits = 0 ∧
    1 ≤ (fetchData cfg url s aborted outs rc).netCalls :=
  fetchData_batch_no_cache cfg url hb outs s rc aborted hst

/-- C10 witness: `cache = true`, `batchSize = 2`, a successful attempt
followed by a second cycle's failing attempt. -/
theorem batching_disables_cache_inst :
    (fetchData (exCfg 0 1000 true 2) "u" initShared false
        [.success (.vnum 5)] 0).shared.cacheStore = [] ∧
    (fetchData (exCfg 0 1000 true 2) "u" initShared false
        [.success (.vnum 5)] 0).cacheHits = 0 ∧
    1 ≤ (fetchData (exCfg 0 1000 true 2) "u" initShared false
        [.success (.vnum 5)] 0).netCalls :=
  batching_disables_cache (exCfg 0 1000 true 2) "u" initShared
    [.success (.vnum 5)] 0 false (by decide) rfl

end UseFetch
